import Mathlib

/-!
Verification of the subscription / reconciliation core of BGmi
(`bgmi/lib/controllers.py`) as a shallow embedding in Lean 4.

The embedding models:
- the per-series reconciliation body of `update` (lines 378-398),
- the staleness sweep at the start of `update` (lines 309-312),
- the per-series fetch/skip loop of `update` (lines 356-376),
- `add` (lines 31-78), `delete` (lines 138-170), `status_` (lines 415-434),
- the `search` result pipeline (lines 247-299).

External collaborators (episode source, catalog, subscription store) are
passed in explicitly: the store slice relevant to one series is an
`Option Followed`, a fallible fetch is an `Except Unit (List Episode)`.
-/

namespace BGmi

/-- Modelled from the spec: the status codes live in `bgmi.lib.table`
(`Followed.STATUS_*`), which is not under `src/`.  Per §3 and §4.3 the legal
codes are {FOLLOWED, UPDATED, DELETED} and `status_change` additionally
rejects a zero/null code, so DELETED is the zero code. -/
def STATUS_DELETED : Nat := 0

/-- Modelled from the spec: see `STATUS_DELETED`. -/
def STATUS_FOLLOWED : Nat := 1

/-- Modelled from the spec: see `STATUS_DELETED`. -/
def STATUS_UPDATED : Nat := 2

/-- Modelled from the spec: `Followed.FOLLOWED_STATUS`, the declared legal
status codes (`bgmi.lib.table` is not under `src/`). -/
def FOLLOWED_STATUS : List Nat := [STATUS_DELETED, STATUS_FOLLOWED, STATUS_UPDATED]

/-- An observed episode (`bgmi.website.model.Episode`): series name, title,
episode number, download link. -/
structure Episode where
  name : String
  title : String
  episode : Nat
  download : String
deriving DecidableEq

/-- A subscription record (`Followed` row): series name, status code,
watermark (`episode`), and the time of the last transition into UPDATED. -/
structure Followed where
  bangumi_name : String
  status : Nat
  episode : Nat
  updated_time : Nat
deriving DecidableEq

/-- A structured controller result: status tag ("success" / "warning" /
"error") and a message. -/
structure CResult where
  tag : String
  message : String
deriving DecidableEq

/-- `max(e.episode for e in data) if data else 0`
(controllers.py lines 378-381, also line 70). -/
def maxEpisode : List Episode → Nat
  | [] => 0
  | e :: rest => max e.episode (maxEpisode rest)

/-- `itertools.groupby(all_episode_data, lambda x: x.episode)`: the list of
maximal runs of consecutive episodes sharing an episode number, each with its
key (controllers.py lines 391-393). -/
def groupRuns : List Episode → List (Nat × List Episode)
  | [] => []
  | e :: rest =>
    match groupRuns rest with
    | [] => [(e.episode, [e])]
    | (k, g) :: t =>
      if e.episode = k then (k, e :: g) :: t
      else (e.episode, [e]) :: (k, g) :: t

/-- Lookup in the dict built by `{key: list(value) for key, value in ...}`:
a later entry for the same key overwrites an earlier one, so `.get(n)` returns
the value of the last pair with key `n` (controllers.py lines 391-393). -/
def dictGet (runs : List (Nat × List Episode)) (n : Nat) : Option (List Episode) :=
  (runs.reverse.find? (fun p => p.1 == n)).map (fun p => p.2)

/-- `episodes = groups.get(i); if episodes: download_queue.append(episodes.pop())`
(controllers.py lines 396-398): the selected episode for number `n`, if any. -/
def pickEpisode (data : List Episode) (n : Nat) : Option Episode :=
  (dictGet (groupRuns data) n).bind List.getLast?

/-- The last episode with number `n` in source order of `data`
(the spec's "last one encountered in source order", §4.2 step 5). -/
def findLastEpisode (data : List Episode) (n : Nat) : Option Episode :=
  data.reverse.find? (fun e => e.episode == n)

/-- The per-series reconciliation body of `update`
(controllers.py lines 378-398): if the highest observed episode number
exceeds the watermark, advance watermark/status/updated_time and build the
download queue over `range(subscribe.episode + 1, episode + 1)`; otherwise
leave the record unchanged and emit an empty queue. -/
def reconcile (f : Followed) (data : List Episode) (now : Nat) :
    Followed × List Episode :=
  let highest := maxEpisode data
  if f.episode < highest then
    ({ f with episode := highest, status := STATUS_UPDATED, updated_time := now },
      (List.range' (f.episode + 1) (highest - f.episode)).filterMap (pickEpisode data))
  else
    (f, [])

/-- The staleness sweep applied to one record (controllers.py lines 309-312):
`if follow.updated_time and int(follow.updated_time + 60 * 60 * 24) < now:
follow.status = Followed.STATUS_FOLLOWED`. -/
def sweepOne (now : Nat) (f : Followed) : Followed :=
  if f.updated_time ≠ 0 ∧ f.updated_time + 60 * 60 * 24 < now then
    { f with status := STATUS_FOLLOWED }
  else f

/-- The per-series loop of `update` (controllers.py lines 302-398): the
staleness sweep runs first over every record, then each series is fetched;
a transport failure (`requests.exceptions.ConnectionError`) is caught for
that series and the loop continues with the next one (lines 370-376). -/
def updateCycle (now : Nat) (fetch : String → Except Unit (List Episode))
    (subs : List Followed) : List (Followed × List Episode) :=
  (subs.map (sweepOne now)).filterMap fun f =>
    match fetch f.bangumi_name with
    | .error _ => none
    | .ok data => some (reconcile f data now)

/-- `add` (controllers.py lines 31-78), after the series name has been
resolved against the catalog.  `store` is the `Followed` row for the resolved
name, `fetch` the fallible `website.get_maximum_episode` call.  The creation
or status flip is committed by the `with Session.begin()` block before the
fetch runs, so a fetch failure propagates (`Except.error`) with the committed
record already in the store. -/
def addFollowed (store : Option Followed) (name : String) (episodeArg : Option Nat)
    (fetch : Except Unit (List Episode)) : Option Followed × Except Unit CResult :=
  match store with
  | none =>
    let f0 : Followed := ⟨name, STATUS_FOLLOWED, 0, 0⟩
    match episodeArg with
    | some ep =>
      (some { f0 with episode := ep },
        .ok ⟨"success", "add " ++ name ++ " to subscribing bangumi list"⟩)
    | none =>
      match fetch with
      | .error e => (some f0, .error e)
      | .ok eps =>
        (some { f0 with episode := maxEpisode eps },
          .ok ⟨"success", "add " ++ name ++ " to subscribing bangumi list"⟩)
  | some f =>
    if f.status = STATUS_FOLLOWED then
      (some f, .ok ⟨"warning", name ++ " already followed"⟩)
    else
      let f0 := { f with status := STATUS_FOLLOWED }
      match episodeArg with
      | some ep =>
        (some { f0 with episode := ep },
          .ok ⟨"success", "add " ++ name ++ " to subscribing bangumi list"⟩)
      | none =>
        match fetch with
        | .error e => (some f0, .error e)
        | .ok eps =>
          (some { f0 with episode := maxEpisode eps },
            .ok ⟨"success", "add " ++ name ++ " to subscribing bangumi list"⟩)

/-- The single-name form of `delete` (controllers.py lines 138-170, the
`elif name:` branch; the `clear_all` branch is out of scope here).
`Followed.get` is modelled from the spec (§6: `get(series) -> Subscription |
NotFound`; the record is retained on soft delete, §3), i.e. a plain lookup of
the row for `name` regardless of its status. -/
def deleteOp (store : Option Followed) (name : String) : Option Followed × CResult :=
  if name = "" then
    (store, ⟨"warning", "Nothing has been done."⟩)
  else
    match store with
    | some f =>
      (some { f with status := STATUS_DELETED },
        ⟨"warning", "Bangumi " ++ name ++ " has been deleted"⟩)
    | none => (store, ⟨"error", "Bangumi " ++ name ++ " does not exist"⟩)

/-- `status_` (controllers.py lines 415-434).  The status-code validation
returns an error result, but the following `Followed.get` raises
`NotFoundError` when no row exists (it is not wrapped in try/except), so the
function propagates the exception (`Except.error`); the `if not followed_obj`
branch below it is unreachable because `get` never returns a falsy object. -/
def statusOp (store : Option Followed) (name : String) (newStatus : Nat) :
    Except Unit (Option Followed × CResult) :=
  if newStatus ∉ FOLLOWED_STATUS ∨ newStatus = 0 then
    .ok (store, ⟨"error", "Invalid status"⟩)
  else
    match store with
    | none => .error ()
    | some f =>
      .ok (some { f with status := newStatus },
        ⟨"success", "Followed " ++ name ++ " has been marked as status"⟩)

/-- Modelled from the spec: `bgmi.utils.episode_filter_regex` is not under
`src/`; §4.1 rule 4: keep only episodes whose title matches the configured
pattern, no filtering when absent.  The compiled-pattern test is abstracted
as a title predicate. -/
def episode_filter_regex (data : List Episode) (regexPred : Option (String → Bool)) :
    List Episode :=
  match regexPred with
  | none => data
  | some p => data.filter fun e => p e.title

/-- Modelled from the spec: `Episode.remove_duplicated_bangumi`
(`bgmi.website.model`) is not under `src/`; §4.1 rule 6: collapse episodes
sharing an episode number, keeping the first-seen instance per number. -/
def remove_duplicated_bangumi (seen : List Nat) : List Episode → List Episode
  | [] => []
  | e :: rest =>
    if e.episode ∈ seen then remove_duplicated_bangumi seen rest
    else e :: remove_duplicated_bangumi (e.episode :: seen) rest

/-- The sort key of `data.sort(key=lambda x: x.episode)`
(controllers.py line 270). -/
def sortKeyLe (a b : Episode) : Prop := a.episode ≤ b.episode

instance : DecidableRel sortKeyLe := fun a b => Nat.decLe a.episode b.episode

instance : IsTotal Episode sortKeyLe := ⟨fun a b => Nat.le_total a.episode b.episode⟩

instance : IsTrans Episode sortKeyLe := ⟨fun _ _ _ => Nat.le_trans⟩

/-- A `search` result (controllers.py lines 247-299): status tag, message and
the data payload. -/
structure SearchResult where
  tag : String
  message : String
  data : List Episode
deriving DecidableEq

/-- `search` (controllers.py lines 247-299), with the fetched raw data passed
in as an `Except` (the `try` body's `website.search_*` call): regex filter,
optional min/max episode bounds, optional deduplication, then
`data.sort(key=lambda x: x.episode)` (a stable sort, modelled by insertion
sort).  Any exception is caught (outside DEBUG mode) and surfaced as an error
result with an empty data list. -/
def search (fetched : Except Unit (List Episode)) (regexPred : Option (String → Bool))
    (minE maxE : Option Nat) (dupe : Bool) : SearchResult :=
  match fetched with
  | .error _ => ⟨"error", "fetch failed", []⟩
  | .ok d0 =>
    let d1 := episode_filter_regex d0 regexPred
    let d2 := match minE with
      | some m => d1.filter fun x => m ≤ x.episode
      | none => d1
    let d3 := match maxE with
      | some m => d2.filter fun x => x.episode ≤ m
      | none => d2
    let d4 := if dupe then d3 else remove_duplicated_bangumi [] d3
    ⟨"success", "", List.insertionSort sortKeyLe d4⟩

/-! ### Helper lemmas about the groupby/dict/pop selection -/

theorem groupRuns_cons_nil (e : Episode) (rest : List Episode)
    (h : groupRuns rest = []) : groupRuns (e :: rest) = [(e.episode, [e])] := by
  simp only [groupRuns, h]

theorem groupRuns_cons_eq (e : Episode) (rest : List Episode) (k : Nat)
    (g : List Episode) (t : List (Nat × List Episode))
    (h : groupRuns rest = (k, g) :: t) (hek : e.episode = k) :
    groupRuns (e :: rest) = (k, e :: g) :: t := by
  simp only [groupRuns, h]
  rw [if_pos hek]

theorem groupRuns_cons_ne (e : Episode) (rest : List Episode) (k : Nat)
    (g : List Episode) (t : List (Nat × List Episode))
    (h : groupRuns rest = (k, g) :: t) (hek : ¬ e.episode = k) :
    groupRuns (e :: rest) = (e.episode, [e]) :: (k, g) :: t := by
  simp only [groupRuns, h]
  rw [if_neg hek]

theorem groupRuns_nonempty :
    ∀ (l : List Episode) (p : Nat × List Episode), p ∈ groupRuns l → p.2 ≠ [] := by
  intro l
  induction l with
  | nil => intro p hp; simp [groupRuns] at hp
  | cons e rest ih =>
    intro p hp
    cases hg : groupRuns rest with
    | nil =>
      rw [groupRuns_cons_nil e rest hg] at hp
      simp at hp
      subst hp
      simp
    | cons hd t =>
      obtain ⟨k, g⟩ := hd
      by_cases hek : e.episode = k
      · rw [groupRuns_cons_eq e rest k g t hg hek] at hp
        rcases List.mem_cons.1 hp with h | h
        · subst h; simp
        · exact ih p (by rw [hg]; exact List.mem_cons_of_mem _ h)
      · rw [groupRuns_cons_ne e rest k g t hg hek] at hp
        rcases List.mem_cons.1 hp with h | h
        · subst h; simp
        · exact ih p (by rw [hg]; exact h)

theorem dictGet_cons (r : Nat × List Episode) (rs : List (Nat × List Episode)) (n : Nat) :
    dictGet (r :: rs) n = (dictGet rs n).or (if r.1 = n then some r.2 else none) := by
  unfold dictGet
  rw [List.reverse_cons, List.find?_append, List.find?_singleton, Option.map_or']
  by_cases h : r.1 = n
  · simp [h]
  · simp [h]

theorem dictGet_mem {rs : List (Nat × List Episode)} {n : Nat} {v : List Episode}
    (h : dictGet rs n = some v) : ∃ k, (k, v) ∈ rs := by
  unfold dictGet at h
  cases hf : rs.reverse.find? (fun p => p.1 == n) with
  | none => rw [hf] at h; simp at h
  | some q =>
    rw [hf] at h
    rw [Option.map_some'] at h
    have hv : q.2 = v := Option.some.inj h
    have hm := List.mem_of_find?_eq_some hf
    rw [List.mem_reverse] at hm
    refine ⟨q.1, ?_⟩
    rw [← hv, Prod.mk.eta]
    exact hm

theorem getLast?_of_ne_nil {v : List Episode} (h : v ≠ []) :
    ∃ x, v.getLast? = some x := by
  cases hv : v.getLast? with
  | none => exact absurd (List.getLast?_eq_none_iff.1 hv) h
  | some x => exact ⟨x, rfl⟩

theorem pickEpisode_cons (e : Episode) (l : List Episode) (n : Nat) :
    pickEpisode (e :: l) n =
      (pickEpisode l n).or (if e.episode = n then some e else none) := by
  unfold pickEpisode
  cases hg : groupRuns l with
  | nil =>
    rw [groupRuns_cons_nil e l hg]
    rw [dictGet_cons]
    by_cases h : e.episode = n <;> simp [dictGet, h]
  | cons hd t =>
    obtain ⟨k, g⟩ := hd
    have hkg : ((k, g) : Nat × List Episode) ∈ groupRuns l := by
      rw [hg]; exact List.mem_cons_self _ _
    by_cases hek : e.episode = k
    · rw [groupRuns_cons_eq e l k g t hg hek]
      rw [dictGet_cons, dictGet_cons]
      cases ht : dictGet t n with
      | some v =>
        obtain ⟨k', hk'⟩ := dictGet_mem ht
        have hv : v ≠ [] :=
          groupRuns_nonempty l (k', v) (by rw [hg]; exact List.mem_cons_of_mem _ hk')
        obtain ⟨x, hx⟩ := getLast?_of_ne_nil hv
        simp [hx]
      | none =>
        by_cases hkn : k = n
        · rw [if_pos hkn, if_pos hkn]
          have hgne : g ≠ [] := groupRuns_nonempty l (k, g) hkg
          obtain ⟨y, ys, hy⟩ := List.exists_cons_of_ne_nil hgne
          subst hy
          obtain ⟨x, hx⟩ := getLast?_of_ne_nil (List.cons_ne_nil y ys)
          simp [List.getLast?_cons_cons, hx]
        · rw [if_neg hkn, if_neg hkn]
          rw [if_neg (by rw [hek]; exact hkn)]
          simp
    · rw [groupRuns_cons_ne e l k g t hg hek]
      rw [dictGet_cons]
      cases hd2 : dictGet ((k, g) :: t) n with
      | some v =>
        obtain ⟨k', hk'⟩ := dictGet_mem hd2
        have hv : v ≠ [] :=
          groupRuns_nonempty l (k', v) (by rw [hg]; exact hk')
        obtain ⟨x, hx⟩ := getLast?_of_ne_nil hv
        simp [hx]
      | none =>
        by_cases h : e.episode = n <;> simp [h]

theorem findLastEpisode_cons (e : Episode) (l : List Episode) (n : Nat) :
    findLastEpisode (e :: l) n =
      (findLastEpisode l n).or (if e.episode = n then some e else none) := by
  unfold findLastEpisode
  rw [List.reverse_cons, List.find?_append, List.find?_singleton]
  by_cases h : e.episode = n
  · simp [h]
  · simp [h]

/-- The groupby/dict/pop selection picks exactly the last episode with
number `n` in source order. -/
theorem pickEpisode_eq_findLast (data : List Episode) (n : Nat) :
    pickEpisode data n = findLastEpisode data n := by
  induction data with
  | nil => rfl
  | cons e l ih => rw [pickEpisode_cons, findLastEpisode_cons, ih]

theorem pickEpisode_episode {data : List Episode} {n : Nat} {e : Episode}
    (h : pickEpisode data n = some e) : e.episode = n := by
  rw [pickEpisode_eq_findLast] at h
  unfold findLastEpisode at h
  have := List.find?_some h
  simpa using this

theorem reconcile_queue_eq (f : Followed) (data : List Episode) (now : Nat)
    (h : f.episode < maxEpisode data) :
    (reconcile f data now).2 =
      (List.range' (f.episode + 1) (maxEpisode data - f.episode)).filterMap
        (pickEpisode data) := by
  unfold reconcile
  rw [if_pos h]

/-! ### Claim theorems -/

/-- C1: whenever the maximum observed episode number exceeds the watermark,
the download queue emitted by `update`'s reconciliation is strictly
increasing in episode number, and every queued episode number is strictly
greater than the pre-reconciliation watermark. -/
theorem update_queue_strictly_increasing (f : Followed) (data : List Episode) (now : Nat)
    (h : f.episode < maxEpisode data) :
    List.Pairwise (fun a b => a.episode < b.episode) (reconcile f data now).2 ∧
      ∀ e ∈ (reconcile f data now).2, f.episode < e.episode := by
  rw [reconcile_queue_eq f data now h]
  constructor
  · rw [List.pairwise_filterMap]
    have hp := List.pairwise_lt_range' (f.episode + 1) (maxEpisode data - f.episode)
    exact hp.imp (fun hab x hx y hy => by
      rw [Option.mem_def] at hx hy
      rw [pickEpisode_episode hx, pickEpisode_episode hy]
      exact hab)
  · intro e he
    obtain ⟨i, hi, hpick⟩ := List.mem_filterMap.1 he
    have h1 := (List.mem_range'_1.1 hi).1
    have h2 := pickEpisode_episode hpick
    omega

/-- Witness for C1 at a concrete input: watermark 3, observed episodes
4, 4 (alternate group), 6. -/
theorem update_queue_strictly_increasing_witness :
    (3 : Nat) < maxEpisode [⟨"A", "a", 4, "d1"⟩, ⟨"A", "b", 4, "d2"⟩, ⟨"A", "c", 6, "d3"⟩] ∧
    (List.Pairwise (fun a b => a.episode < b.episode)
        (reconcile ⟨"A", STATUS_FOLLOWED, 3, 0⟩
          [⟨"A", "a", 4, "d1"⟩, ⟨"A", "b", 4, "d2"⟩, ⟨"A", "c", 6, "d3"⟩] 100).2 ∧
      ∀ e ∈ (reconcile ⟨"A", STATUS_FOLLOWED, 3, 0⟩
          [⟨"A", "a", 4, "d1"⟩, ⟨"A", "b", 4, "d2"⟩, ⟨"A", "c", 6, "d3"⟩] 100).2,
        (⟨"A", STATUS_FOLLOWED, 3, 0⟩ : Followed).episode < e.episode) :=
  ⟨by decide,
    update_queue_strictly_increasing ⟨"A", STATUS_FOLLOWED, 3, 0⟩
      [⟨"A", "a", 4, "d1"⟩, ⟨"A", "b", 4, "d2"⟩, ⟨"A", "c", 6, "d3"⟩] 100 (by decide)⟩

/-- C2: reconciling with an empty observed list, or one whose maximum episode
number is at most the watermark, leaves the record (status, watermark,
updated_time) unchanged and emits an empty queue. -/
theorem reconcile_noop (f : Followed) (data : List Episode) (now : Nat)
    (h : data = [] ∨ maxEpisode data ≤ f.episode) :
    reconcile f data now = (f, []) := by
  have hnot : ¬ f.episode < maxEpisode data := by
    rcases h with h | h
    · subst h
      show ¬ f.episode < maxEpisode []
      unfold maxEpisode
      omega
    · omega
  unfold reconcile
  rw [if_neg hnot]

/-- Witness for C2 at concrete inputs (both the empty-list case and the
stale-episodes case, via the disjunction's right side). -/
theorem reconcile_noop_witness :
    ([⟨"A", "a", 2, "d"⟩] = ([] : List Episode) ∨
      maxEpisode [⟨"A", "a", 2, "d"⟩] ≤ (⟨"A", STATUS_FOLLOWED, 3, 7⟩ : Followed).episode) ∧
    reconcile ⟨"A", STATUS_FOLLOWED, 3, 7⟩ [⟨"A", "a", 2, "d"⟩] 100 =
      (⟨"A", STATUS_FOLLOWED, 3, 7⟩, []) :=
  ⟨Or.inr (by decide),
    reconcile_noop ⟨"A", STATUS_FOLLOWED, 3, 7⟩ [⟨"A", "a", 2, "d"⟩] 100
      (Or.inr (by decide))⟩

/-- C3: for every number `n` in `(watermark, highest]`, the queue's entry for
`n` is exactly the last observed instance with number `n` in source order:
any queued episode with number `n` is that last instance, the last instance
(when one exists) is queued, and a number with no observed instance
contributes nothing to the queue. -/
theorem update_queue_last_instance (f : Followed) (data : List Episode) (now : Nat)
    (n : Nat) (h1 : f.episode < n) (h2 : n ≤ maxEpisode data) :
    (∀ e ∈ (reconcile f data now).2, e.episode = n → findLastEpisode data n = some e) ∧
    (∀ e, findLastEpisode data n = some e → e ∈ (reconcile f data now).2) ∧
    (findLastEpisode data n = none →
      ∀ e ∈ (reconcile f data now).2, e.episode ≠ n) := by
  have h : f.episode < maxEpisode data := lt_of_lt_of_le h1 h2
  have hq := reconcile_queue_eq f data now h
  have hnr : n ∈ List.range' (f.episode + 1) (maxEpisode data - f.episode) :=
    List.mem_range'_1.2 ⟨by omega, by omega⟩
  have hA : ∀ e ∈ (reconcile f data now).2, e.episode = n →
      findLastEpisode data n = some e := by
    intro e he hen
    rw [hq] at he
    obtain ⟨i, _, hpick⟩ := List.mem_filterMap.1 he
    have hei := pickEpisode_episode hpick
    rw [← pickEpisode_eq_findLast]
    rw [hen] at hei
    rw [hei]
    exact hpick
  refine ⟨hA, ?_, ?_⟩
  · intro e hfe
    have hp : pickEpisode data n = some e := by
      rw [pickEpisode_eq_findLast]; exact hfe
    rw [hq]
    exact List.mem_filterMap.2 ⟨n, hnr, hp⟩
  · intro hnone e he hen
    rw [hA e he hen] at hnone
    exact Option.noConfusion hnone

/-- Witness for C3 at the spec's example: watermark 3, observed 4, 4 (alt
group), 6; checked at n = 4. -/
theorem update_queue_last_instance_witness :
    ((⟨"A", STATUS_FOLLOWED, 3, 0⟩ : Followed).episode < 4 ∧
      4 ≤ maxEpisode [⟨"A", "a", 4, "d1"⟩, ⟨"A", "b", 4, "d2"⟩, ⟨"A", "c", 6, "d3"⟩]) ∧
    ((∀ e ∈ (reconcile ⟨"A", STATUS_FOLLOWED, 3, 0⟩
          [⟨"A", "a", 4, "d1"⟩, ⟨"A", "b", 4, "d2"⟩, ⟨"A", "c", 6, "d3"⟩] 100).2,
        e.episode = 4 →
          findLastEpisode [⟨"A", "a", 4, "d1"⟩, ⟨"A", "b", 4, "d2"⟩, ⟨"A", "c", 6, "d3"⟩] 4
            = some e) ∧
      (∀ e, findLastEpisode [⟨"A", "a", 4, "d1"⟩, ⟨"A", "b", 4, "d2"⟩, ⟨"A", "c", 6, "d3"⟩] 4
          = some e →
        e ∈ (reconcile ⟨"A", STATUS_FOLLOWED, 3, 0⟩
          [⟨"A", "a", 4, "d1"⟩, ⟨"A", "b", 4, "d2"⟩, ⟨"A", "c", 6, "d3"⟩] 100).2) ∧
      (findLastEpisode [⟨"A", "a", 4, "d1"⟩, ⟨"A", "b", 4, "d2"⟩, ⟨"A", "c", 6, "d3"⟩] 4
          = none →
        ∀ e ∈ (reconcile ⟨"A", STATUS_FOLLOWED, 3, 0⟩
          [⟨"A", "a", 4, "d1"⟩, ⟨"A", "b", 4, "d2"⟩, ⟨"A", "c", 6, "d3"⟩] 100).2,
          e.episode ≠ 4)) :=
  ⟨⟨by decide, by decide⟩,
    update_queue_last_instance ⟨"A", STATUS_FOLLOWED, 3, 0⟩
      [⟨"A", "a", 4, "d1"⟩, ⟨"A", "b", 4, "d2"⟩, ⟨"A", "c", 6, "d3"⟩] 100 4
      (by decide) (by decide)⟩

/-- C4 counterexample: a subscription in status UPDATED counts as active, yet
`add` mutates it (status flipped to FOLLOWED, watermark reset to the maximum
observed episode) and returns a success result, not an AlreadyExists-class
warning — the code only short-circuits on STATUS_FOLLOWED. -/
theorem add_updated_not_noop_counterexample :
    addFollowed (some ⟨"A", STATUS_UPDATED, 5, 7⟩) "A" none (.ok [⟨"A", "t", 12, "d"⟩])
      = (some ⟨"A", STATUS_FOLLOWED, 12, 7⟩,
          .ok ⟨"success", "add A to subscribing bangumi list"⟩) ∧
    STATUS_UPDATED ≠ STATUS_FOLLOWED :=
  ⟨rfl, by decide⟩

/-- C4 (amended): only an existing subscription in status FOLLOWED makes
`add` a no-op returning the already-followed warning; any other existing
status (UPDATED like DELETED) is flipped to FOLLOWED with the watermark
re-resolved. -/
theorem add_followed_noop (f : Followed) (name : String) (episodeArg : Option Nat)
    (fetch : Except Unit (List Episode)) (h : f.status = STATUS_FOLLOWED) :
    addFollowed (some f) name episodeArg fetch
      = (some f, .ok ⟨"warning", name ++ " already followed"⟩) := by
  simp only [addFollowed]
  rw [if_pos h]

/-- Witness for the amended C4 at a concrete FOLLOWED subscription. -/
theorem add_followed_noop_witness :
    (⟨"A", STATUS_FOLLOWED, 5, 7⟩ : Followed).status = STATUS_FOLLOWED ∧
    addFollowed (some ⟨"A", STATUS_FOLLOWED, 5, 7⟩) "A" none (.ok [⟨"A", "t", 12, "d"⟩])
      = (some ⟨"A", STATUS_FOLLOWED, 5, 7⟩, .ok ⟨"warning", "A already followed"⟩) :=
  ⟨by decide,
    add_followed_noop ⟨"A", STATUS_FOLLOWED, 5, 7⟩ "A" none (.ok [⟨"A", "t", 12, "d"⟩])
      (by decide)⟩

/-- C5 counterexample: a subscription in status UPDATED whose `updated_time`
is 0 — which is more than 24 hours before `now = 200000` — is NOT reverted by
the staleness sweep, because the code guards on `if follow.updated_time`
(0 is falsy). -/
theorem sweep_zero_updated_time_counterexample :
    (0 : Nat) + 60 * 60 * 24 < 200000 ∧
    (sweepOne 200000 ⟨"A", STATUS_UPDATED, 3, 0⟩).status = STATUS_UPDATED := by
  decide

/-- C5 (amended): at the start of the update cycle, every subscription with a
NONZERO `updated_time` more than 24 hours before now has its status set to
FOLLOWED by the sweep, and a subscription in UPDATED whose `updated_time` is
at most 24 hours in the past (for example one hour) keeps status UPDATED. -/
theorem sweep_staleness (f g : Followed) (now : Nat)
    (hf0 : f.updated_time ≠ 0) (hf : f.updated_time + 60 * 60 * 24 < now)
    (hg : g.status = STATUS_UPDATED) (hgt : now ≤ g.updated_time + 60 * 60 * 24) :
    (sweepOne now f).status = STATUS_FOLLOWED ∧
    (sweepOne now g).status = STATUS_UPDATED := by
  constructor
  · unfold sweepOne
    rw [if_pos ⟨hf0, hf⟩]
  · have hno : ¬ (g.updated_time ≠ 0 ∧ g.updated_time + 60 * 60 * 24 < now) := by
      rintro ⟨-, hlt⟩
      omega
    unfold sweepOne
    rw [if_neg hno]
    exact hg

/-- Witness for the amended C5: `now = 100000`; a record whose update was at
time 5 (more than 24 h ago) reverts, one updated one hour ago (96400) does
not. -/
theorem sweep_staleness_witness :
    (sweepOne 100000 ⟨"A", STATUS_UPDATED, 3, 5⟩).status = STATUS_FOLLOWED ∧
    (sweepOne 100000 ⟨"B", STATUS_UPDATED, 3, 96400⟩).status = STATUS_UPDATED :=
  sweep_staleness ⟨"A", STATUS_UPDATED, 3, 5⟩ ⟨"B", STATUS_UPDATED, 3, 96400⟩ 100000
    (by decide) (by decide) (by decide) (by decide)

/-- C6 counterexample: `add` on a series with no existing subscription
commits the new FOLLOWED record (watermark 0) inside the session block
BEFORE fetching the maximum observable episode; if that fetch fails, the
call propagates the failure but the store is no longer as it was before the
call — an intermediate subscription state is persisted. -/
theorem add_partial_persist_counterexample :
    addFollowed none "A" none (.error ())
      = (some ⟨"A", STATUS_FOLLOWED, 0, 0⟩, .error ()) ∧
    (none : Option Followed) ≠ some ⟨"A", STATUS_FOLLOWED, 0, 0⟩ :=
  ⟨rfl, by decide⟩

/-- C6 (amended): `add` is not all-or-nothing: the subscription creation (or
the status flip of a non-FOLLOWED record) is committed in a first transaction
before the episode fetch, so when the fetch fails the error propagates while
the created record (watermark 0) or the flipped record remains persisted. -/
theorem add_commits_before_fetch (name : String) (f : Followed)
    (h : f.status ≠ STATUS_FOLLOWED) :
    addFollowed none name none (.error ())
      = (some ⟨name, STATUS_FOLLOWED, 0, 0⟩, .error ()) ∧
    addFollowed (some f) name none (.error ())
      = (some { f with status := STATUS_FOLLOWED }, .error ()) := by
  refine ⟨rfl, ?_⟩
  simp only [addFollowed]
  rw [if_neg h]

/-- Witness for the amended C6 at a concrete DELETED subscription. -/
theorem add_commits_before_fetch_witness :
    (⟨"A", STATUS_DELETED, 4, 9⟩ : Followed).status ≠ STATUS_FOLLOWED ∧
    (addFollowed none "A" none (.error ())
        = (some ⟨"A", STATUS_FOLLOWED, 0, 0⟩, .error ()) ∧
      addFollowed (some ⟨"A", STATUS_DELETED, 4, 9⟩) "A" none (.error ())
        = (some ⟨"A", STATUS_FOLLOWED, 4, 9⟩, .error ())) :=
  ⟨by decide, add_commits_before_fetch "A" ⟨"A", STATUS_DELETED, 4, 9⟩ (by decide)⟩

/-- C7: evaluating `status_` at the failing input — a valid status code but a
series name with no subscription record — shows the call propagating the
`NotFoundError` raised by `Followed.get` (modelled as `Except.error`) instead
of returning the structured error result intended by the (unreachable)
`if not followed_obj` branch. -/
theorem status_missing_subscription_raises :
    statusOp none "A" STATUS_FOLLOWED = .error () := by
  rfl

/-- C8 counterexample: deleting a series whose subscription is already in
status DELETED is reported with the "has been deleted" warning result, not a
not-found error — `Followed.get` finds the retained record regardless of its
status. -/
theorem delete_already_deleted_counterexample :
    deleteOp (some ⟨"A", STATUS_DELETED, 3, 0⟩) "A"
      = (some ⟨"A", STATUS_DELETED, 3, 0⟩,
          ⟨"warning", "Bangumi A has been deleted"⟩) ∧
    ("warning" : String) ≠ "error" :=
  ⟨rfl, by decide⟩

/-- C8 (amended): the single-name delete is a soft delete — it sets the found
record's status to DELETED while retaining the record (hence idempotent in
state: re-deleting an already-deleted record is a no-op on the store) and
reports a deletion warning; only a series with no subscription record at all
is reported as not found. -/
theorem delete_soft_delete (f : Followed) (name : String) (h : name ≠ "") :
    deleteOp (some f) name
      = (some { f with status := STATUS_DELETED },
          ⟨"warning", "Bangumi " ++ name ++ " has been deleted"⟩) ∧
    deleteOp none name
      = (none, ⟨"error", "Bangumi " ++ name ++ " does not exist"⟩) := by
  constructor
  · unfold deleteOp
    rw [if_neg h]
  · unfold deleteOp
    rw [if_neg h]

/-- Witness for the amended C8 at a concrete followed subscription. -/
theorem delete_soft_delete_witness :
    ("A" : String) ≠ "" ∧
    (deleteOp (some ⟨"A", STATUS_FOLLOWED, 3, 0⟩) "A"
        = (some ⟨"A", STATUS_DELETED, 3, 0⟩,
            ⟨"warning", "Bangumi A has been deleted"⟩) ∧
      deleteOp none "A"
        = (none, ⟨"error", "Bangumi A does not exist"⟩)) :=
  ⟨by decide, delete_soft_delete ⟨"A", STATUS_FOLLOWED, 3, 0⟩ "A" (by decide)⟩

/-- C9: during a refresh cycle, a transport failure while fetching one
series' episodes is caught for that series only: the cycle's results are
exactly those of the series before it followed by those after it — no
single series' fetch failure aborts the batch. -/
theorem update_transport_failure_skips (now : Nat)
    (fetch : String → Except Unit (List Episode)) (pre post : List Followed)
    (b : Followed) (h : fetch b.bangumi_name = .error ()) :
    updateCycle now fetch (pre ++ b :: post)
      = updateCycle now fetch pre ++ updateCycle now fetch post := by
  unfold updateCycle
  have hb : fetch (sweepOne now b).bangumi_name = .error () := by
    have hname : (sweepOne now b).bangumi_name = b.bangumi_name := by
      unfold sweepOne
      split <;> rfl
    rw [hname, h]
  rw [List.map_append, List.filterMap_append, List.map_cons, List.filterMap_cons, hb]

/-- Witness for C9: a failing middle series is skipped while the series
before and after it are still reconciled. -/
theorem update_transport_failure_skips_witness :
    (fun name => if name = "B" then (.error () : Except Unit (List Episode))
        else .ok [⟨name, "t", 4, "d"⟩]) "B" = .error () ∧
    updateCycle 100
        (fun name => if name = "B" then (.error () : Except Unit (List Episode))
          else .ok [⟨name, "t", 4, "d"⟩])
        ([⟨"A", STATUS_FOLLOWED, 3, 0⟩] ++ ⟨"B", STATUS_FOLLOWED, 3, 0⟩ ::
          [⟨"C", STATUS_FOLLOWED, 3, 0⟩])
      = updateCycle 100
          (fun name => if name = "B" then (.error () : Except Unit (List Episode))
            else .ok [⟨name, "t", 4, "d"⟩])
          [⟨"A", STATUS_FOLLOWED, 3, 0⟩] ++
        updateCycle 100
          (fun name => if name = "B" then (.error () : Except Unit (List Episode))
            else .ok [⟨name, "t", 4, "d"⟩])
          [⟨"C", STATUS_FOLLOWED, 3, 0⟩] :=
  ⟨rfl,
    update_transport_failure_skips 100
      (fun name => if name = "B" then .error () else .ok [⟨name, "t", 4, "d"⟩])
      [⟨"A", STATUS_FOLLOWED, 3, 0⟩] [⟨"C", STATUS_FOLLOWED, 3, 0⟩]
      ⟨"B", STATUS_FOLLOWED, 3, 0⟩ rfl⟩

/-- C10: whenever `search` returns a success result, its data payload is
sorted in non-decreasing order of episode number (after the regex filter,
the min/max episode bounds, and the optional deduplication). -/
theorem search_success_sorted (fetched : Except Unit (List Episode))
    (regexPred : Option (String → Bool)) (minE maxE : Option Nat) (dupe : Bool)
    (h : (search fetched regexPred minE maxE dupe).tag = "success") :
    List.Sorted sortKeyLe (search fetched regexPred minE maxE dupe).data := by
  cases fetched with
  | error e =>
    exact absurd h (by simp [search])
  | ok d0 =>
    exact List.sorted_insertionSort sortKeyLe _

/-- Witness for C10 at a concrete unsorted fetch result. -/
theorem search_success_sorted_witness :
    (search (.ok [⟨"A", "t1", 6, "d1"⟩, ⟨"A", "t2", 2, "d2"⟩, ⟨"A", "t3", 4, "d3"⟩])
        none none none false).tag = "success" ∧
    List.Sorted sortKeyLe
      (search (.ok [⟨"A", "t1", 6, "d1"⟩, ⟨"A", "t2", 2, "d2"⟩, ⟨"A", "t3", 4, "d3"⟩])
        none none none false).data :=
  ⟨rfl,
    search_success_sorted
      (.ok [⟨"A", "t1", 6, "d1"⟩, ⟨"A", "t2", 2, "d2"⟩, ⟨"A", "t3", 4, "d3"⟩])
      none none none false rfl⟩

end BGmi
